import Mathlib

/-!
Verification of the `snps.utils` helper module.

The Python source (`src/snps/utils.py`) is shallowly embedded: pure string
transforms become functions on `List Char` / `String`, filesystem-touching
helpers become explicit state passing over an association-list filesystem,
and fallible calls return `Except`.
-/

/-- A word character in the sense of the regex class `\w` (ASCII fragment):
a letter, a digit, or an underscore. -/
def isWordChar (c : Char) : Bool :=
  c.isAlphanum || c = '_'

/-- The substitution `re.sub` performs away from the string start: the
anchor `^` cannot match there, so only the `\W` alternative applies and
every non-word character becomes an underscore. -/
def cleanTail (cs : List Char) : List Char :=
  cs.map (fun c => if isWordChar c then c else '_')

/-- Characters of `re.sub(r"\W|^(?=\d)", "_", s)`.  At position 0 the engine
first tries `\W`; if the head is a word character and a digit, the zero-width
alternative `^(?=\d)` matches the empty string there, so an underscore is
inserted and the digit itself is kept (Python keeps the character after an
empty match and resumes scanning at the next position). -/
def cleanChars : List Char → List Char
  | [] => []
  | c :: rest =>
      if isWordChar c then
        if c.isDigit then '_' :: c :: cleanTail rest
        else c :: cleanTail rest
      else '_' :: cleanTail rest

/-- `clean_str` from `src/snps/utils.py`: clean a string so that it can be
used as a Python variable name, via `re.sub(r"\W|^(?=\d)", "_", s)`. -/
def clean_str (s : String) : String := ⟨cleanChars s.data⟩

/-- Whether a character list starts with a digit. -/
def firstIsDigit : List Char → Bool
  | [] => false
  | c :: _ => c.isDigit

theorem isWordChar_underscore : isWordChar '_' = true := by decide

theorem underscore_not_digit : ('_').isDigit = false := by decide

theorem cleanTail_cons (c : Char) (l : List Char) :
    cleanTail (c :: l) = (if isWordChar c then c else '_') :: cleanTail l := rfl

theorem cleanTail_all_word (l : List Char) :
    (cleanTail l).all isWordChar = true := by
  induction l with
  | nil => rfl
  | cons c cs ih =>
      by_cases h : isWordChar c = true
      · simp [cleanTail, h] at ih ⊢
        exact ih
      · simp [cleanTail, h, isWordChar_underscore] at ih ⊢
        exact ih

theorem cleanTail_word_id (l : List Char) (h : l.all isWordChar = true) :
    cleanTail l = l := by
  induction l with
  | nil => rfl
  | cons c cs ih =>
      simp only [List.all_cons, Bool.and_eq_true] at h
      simp [cleanTail, h.1]
      simpa [cleanTail] using ih h.2

theorem cleanTail_idem (l : List Char) :
    cleanTail (cleanTail l) = cleanTail l :=
  cleanTail_word_id _ (cleanTail_all_word l)

theorem cleanChars_idem (l : List Char) :
    cleanChars (cleanChars l) = cleanChars l := by
  cases l with
  | nil => rfl
  | cons c cs =>
      by_cases hw : isWordChar c = true
      · by_cases hd : c.isDigit = true
        · simp [cleanChars, hw, hd, isWordChar_underscore, underscore_not_digit,
            cleanTail_cons, cleanTail_idem cs]
        · simp [cleanChars, hw, hd, cleanTail_idem cs]
      · simp [cleanChars, hw, isWordChar_underscore, underscore_not_digit,
          cleanTail_idem cs]

/-- C1 counterexample: `clean_str` applied to `"1st place!"` does not return
the spec's claimed value `"_st_place_"`; the regex alternative `^(?=\d)` is a
zero-width lookahead, so the leading digit is kept, not replaced. -/
theorem clean_str_example_ne_spec :
    clean_str "1st place!" ≠ "_st_place_" := by decide

/-- C1 (amended): `clean_str "1st place!"` returns `"_1st_place_"`: an
underscore is inserted before the leading digit (the digit is kept), the
space and `'!'` are each replaced by an underscore, and the letters are
unchanged. -/
theorem clean_str_example :
    clean_str "1st place!" = "_1st_place_" := by decide

/-- C6: `clean_str` is total, every character of its output is a word
character (letter, digit or underscore), and the output never starts with a
digit. -/
theorem clean_str_output_word_chars (s : String) :
    (clean_str s).data.all isWordChar = true ∧
    firstIsDigit (clean_str s).data = false := by
  obtain ⟨l⟩ := s
  cases l with
  | nil => exact ⟨rfl, rfl⟩
  | cons c cs =>
      by_cases hw : isWordChar c = true
      · by_cases hd : c.isDigit = true
        · refine ⟨?_, by simp [clean_str, cleanChars, hw, hd, firstIsDigit]⟩
          simp [clean_str, cleanChars, hw, hd, isWordChar_underscore,
            cleanTail_all_word cs]
        · refine ⟨?_, by simp [clean_str, cleanChars, hw, hd, firstIsDigit, hd]⟩
          simp [clean_str, cleanChars, hw, hd, cleanTail_all_word cs]
      · refine ⟨?_, by simp [clean_str, cleanChars, hw, firstIsDigit]⟩
        simp [clean_str, cleanChars, hw, isWordChar_underscore,
          cleanTail_all_word cs]

/-- C9: `clean_str` is idempotent: applying it to its own output changes
nothing. -/
theorem clean_str_idempotent (s : String) :
    clean_str (clean_str s) = clean_str s := by
  obtain ⟨l⟩ := s
  simp [clean_str, cleanChars_idem l]

/-- Split a list into the successive chunks `multiprocessing.Pool.map` hands
to its worker processes.  Every produced chunk is nonempty whatever `n`. -/
def chunksOf (n : Nat) (l : List α) : List (List α) :=
  match l with
  | [] => []
  | x :: xs => (x :: xs.take (n - 1)) :: chunksOf n (xs.drop (n - 1))
termination_by l.length
decreasing_by
  simp only [List.length_drop, List.length_cons]
  omega

theorem flatten_chunksOf (n : Nat) (l : List α) : (chunksOf n l).flatten = l := by
  match l with
  | [] => simp [chunksOf]
  | x :: xs =>
      have ih := flatten_chunksOf n (xs.drop (n - 1))
      simp [chunksOf, ih]
termination_by l.length
decreasing_by
  simp only [List.length_drop, List.length_cons]
  omega

/-- The chunk size `Pool.map` derives from the task count and the pool size:
`divmod(len, processes * 4)` rounded up when the division is not exact. -/
def poolChunksize (processes len : Nat) : Nat :=
  if len % (processes * 4) = 0 then len / (processes * 4)
  else len / (processes * 4) + 1

/-- `multiprocessing.Pool(processes).map(f, tasks)`: split the tasks into
chunks, have the workers map `f` over each chunk, and reassemble the
per-chunk result lists in task order. -/
def pool_map (processes : Nat) (f : α → β) (tasks : List α) : List β :=
  ((chunksOf (poolChunksize processes tasks.length) tasks).map
    (List.map f)).flatten

/-- The `Parallelizer` class: `parallelize` and `processes` as set by
`__init__`. -/
structure Parallelizer where
  parallelize : Bool
  processes : Nat

/-- `Parallelizer.__call__`: with `parallelize` run `Pool.map`, otherwise
return the lazy `map(f, tasks)` iterator, here materialized as the list of
its elements in order. -/
def Parallelizer.call (p : Parallelizer) (f : α → β) (tasks : List α) :
    List β :=
  if p.parallelize then pool_map p.processes f tasks
  else tasks.map f

/-- C7: for every function `f` and ordered task list, the `Parallelizer`
yields exactly `tasks.map f`, element for element in input order, whether
`parallelize` is true or false. -/
theorem Parallelizer.call_eq_map (p : Parallelizer) (f : α → β)
    (tasks : List α) : p.call f tasks = tasks.map f := by
  unfold Parallelizer.call pool_map
  split
  · rw [← List.map_flatten, flatten_chunksOf]
  · rfl

/-- The process-wide state behind the `Singleton` metaclass: `_instances`
maps a class (identified by a numeric type id) to the object id of its sole
cached instance, and `nextObj` supplies the fresh object identity the next
underlying construction would allocate. -/
structure SingletonState where
  instances : List (Nat × Nat)
  nextObj : Nat
deriving DecidableEq

/-- `Singleton.__call__(cls, *args, **kwargs)`: if `cls` is not yet in
`_instances`, construct a fresh instance (whose identity is independent of
the arguments) and cache it; then return `_instances[cls]`. -/
def Singleton.call (st : SingletonState) (cls : Nat) (_args : List Nat) :
    Nat × SingletonState :=
  match st.instances.lookup cls with
  | some obj => (obj, st)
  | none =>
      (st.nextObj,
        { instances := (cls, st.nextObj) :: st.instances,
          nextObj := st.nextObj + 1 })

/-- C4: constructing a `Singleton`-registered type twice, with the same or
different arguments, returns the identical cached object both times, the
second construction does not change the registry, the registry maps the type
to exactly that instance, and no later construction of any type disturbs an
existing registry entry. -/
theorem Singleton.call_returns_cached (st : SingletonState) (cls : Nat)
    (args1 args2 : List Nat) :
    (Singleton.call (Singleton.call st cls args1).2 cls args2).1
        = (Singleton.call st cls args1).1 ∧
    (Singleton.call (Singleton.call st cls args1).2 cls args2).2
        = (Singleton.call st cls args1).2 ∧
    ((Singleton.call st cls args1).2).instances.lookup cls
        = some (Singleton.call st cls args1).1 ∧
    ∀ cls2 args3 cls1 i, st.instances.lookup cls1 = some i →
      ((Singleton.call st cls2 args3).2).instances.lookup cls1 = some i := by
  refine ⟨?_, ?_, ?_, ?_⟩
  · cases h : st.instances.lookup cls <;>
      simp [Singleton.call, h, List.lookup]
  · cases h : st.instances.lookup cls <;>
      simp [Singleton.call, h, List.lookup]
  · cases h : st.instances.lookup cls <;>
      simp [Singleton.call, h, List.lookup]
  · intro cls2 args3 cls1 i hi
    cases h : st.instances.lookup cls2 with
    | some obj => simp [Singleton.call, h, hi]
    | none =>
        by_cases hc : cls1 = cls2
        · subst hc
          rw [hi] at h
          exact absurd h (by simp)
        · have hb : (cls1 == cls2) = false := by simpa using hc
          simp [Singleton.call, h, List.lookup, hb, hi]

/-- Witness for C4 at a concrete registry state. -/
theorem Singleton.call_returns_cached_witness :
    (Singleton.call (Singleton.call ⟨[(7, 3)], 4⟩ 1 [2]).2 1 [9]).1
        = (Singleton.call ⟨[(7, 3)], 4⟩ 1 [2]).1 ∧
    ((Singleton.call ⟨[(7, 3)], 4⟩ 1 [2]).2).instances.lookup 7 = some 3 :=
  ⟨(Singleton.call_returns_cached ⟨[(7, 3)], 4⟩ 1 [2] [9]).1,
    (Singleton.call_returns_cached ⟨[(7, 3)], 4⟩ 1 [2] [9]).2.2.2 1 [2] 7 3
      (by decide)⟩

/-- Python exception kinds distinguished by `get_utc_now`: the
`AttributeError` raised when `datetime.UTC` is absent, and every other
exception. -/
inductive PyErr where
  | attributeError
  | otherError (msg : String)
deriving DecidableEq

/-- The runtime's timestamp API surface: `now_utc` models evaluating
`datetime.datetime.now(datetime.UTC)` (on runtimes without `datetime.UTC`
that expression raises `AttributeError`); `utcnow` models
`datetime.datetime.utcnow()`.  Timestamps are abstracted as naturals. -/
structure DatetimeApi where
  now_utc : Except PyErr Nat
  utcnow : Except PyErr Nat

/-- `get_utc_now` from `src/snps/utils.py`: try the timezone-aware call,
fall back to `utcnow` exactly on `AttributeError`, and let every other
exception propagate. -/
def get_utc_now (api : DatetimeApi) : Except PyErr Nat :=
  match api.now_utc with
  | .ok t => .ok t
  | .error .attributeError => api.utcnow
  | .error e => .error e

/-- C5: `get_utc_now` first attempts the timezone-aware UTC timestamp and
returns it when it succeeds; it calls the naive fallback exactly when that
attempt fails with `AttributeError`; any other error propagates unchanged. -/
theorem get_utc_now_prefers_aware (api : DatetimeApi) :
    (∀ t, api.now_utc = .ok t → get_utc_now api = .ok t) ∧
    (api.now_utc = .error .attributeError → get_utc_now api = api.utcnow) ∧
    (∀ m, api.now_utc = .error (.otherError m) →
      get_utc_now api = .error (.otherError m)) := by
  refine ⟨?_, ?_, ?_⟩
  · intro t h
    simp [get_utc_now, h]
  · intro h
    simp [get_utc_now, h]
  · intro m h
    simp [get_utc_now, h]

/-- Witness for C5 at three concrete API environments, one per case. -/
theorem get_utc_now_prefers_aware_witness :
    get_utc_now ⟨.ok 5, .ok 7⟩ = .ok 5 ∧
    get_utc_now ⟨.error .attributeError, .ok 7⟩ = .ok 7 ∧
    get_utc_now ⟨.error (.otherError "OSError"), .ok 7⟩
        = .error (.otherError "OSError") :=
  ⟨(get_utc_now_prefers_aware ⟨.ok 5, .ok 7⟩).1 5 rfl,
    (get_utc_now_prefers_aware ⟨.error .attributeError, .ok 7⟩).2.1 rfl,
    (get_utc_now_prefers_aware ⟨.error (.otherError "OSError"), .ok 7⟩).2.2
      "OSError" rfl⟩

/-- Association-list update: bind key `k` to `v`, shadowing and dropping any
previous binding.  Models writing a file's content in the model filesystem. -/
def alSet (l : List (String × α)) (k : String) (v : α) : List (String × α) :=
  (k, v) :: l.filter (fun kv => kv.1 != k)

/-- Association-list removal of key `k`.  Models deleting a file. -/
def alRemove (l : List (String × α)) (k : String) : List (String × α) :=
  l.filter (fun kv => kv.1 != k)

theorem lookup_filter_ne (l : List (String × α)) (k k2 : String)
    (h : k2 ≠ k) :
    (l.filter (fun kv => kv.1 != k)).lookup k2 = l.lookup k2 := by
  induction l with
  | nil => rfl
  | cons kv rest ih =>
      obtain ⟨a, b⟩ := kv
      by_cases ha : a = k
      · subst ha
        simp only [List.filter, bne_self_eq_false]
        rw [ih]
        simp [List.lookup, show (k2 == a) = false by simpa using h]
      · simp only [List.filter, show (a != k) = true by simpa using ha]
        by_cases h2 : k2 = a
        · subst h2
          simp [List.lookup]
        · simp [List.lookup, show (k2 == a) = false by simpa using h2, ih]

theorem lookup_alSet_self (l : List (String × α)) (k : String) (v : α) :
    (alSet l k v).lookup k = some v := by
  simp [alSet, List.lookup]

theorem lookup_alSet_ne (l : List (String × α)) (k k2 : String) (v : α)
    (h : k2 ≠ k) : (alSet l k v).lookup k2 = l.lookup k2 := by
  simp only [alSet, List.lookup, show (k2 == k) = false by simpa using h]
  exact lookup_filter_ne l k k2 h

/-- The model filesystem: the set of existing directories and the map from
file paths to file contents. -/
structure FS where
  dirs : List String
  files : List (String × String)
deriving DecidableEq

/-- `os.path.exists`: the path names an existing directory or file. -/
def pathExists (fs : FS) (p : String) : Bool :=
  fs.dirs.contains p || (fs.files.lookup p).isSome

/-- `os.makedirs(path, exist_ok=True)`: raises when the path collides with
an existing file, succeeds silently when the directory already exists, and
otherwise creates it. -/
def makedirs (fs : FS) (p : String) : Except String FS :=
  if (fs.files.lookup p).isSome then .error "FileExistsError"
  else .ok { fs with dirs := if fs.dirs.contains p then fs.dirs else p :: fs.dirs }

/-- `create_dir` from `src/snps/utils.py`: `os.makedirs(path, exist_ok=True)`
followed by an `os.path.exists(path)` check that selects the returned
boolean. -/
def create_dir (fs : FS) (p : String) : Except String (Bool × FS) :=
  match makedirs fs p with
  | .error e => .error e
  | .ok fs2 => if pathExists fs2 p then .ok (true, fs2) else .ok (false, fs2)

theorem makedirs_ok_exists (fs : FS) (p : String) (fs2 : FS)
    (h : makedirs fs p = .ok fs2) : pathExists fs2 p = true := by
  unfold makedirs at h
  split at h
  · cases h
  · cases h
    by_cases hd : fs.dirs.contains p = true
    · have hm : p ∈ fs.dirs := by simpa using hd
      simp [pathExists, hd, hm]
    · have hm : p ∉ fs.dirs := by simpa using hd
      simp [pathExists, hm]

theorem makedirs_files (fs : FS) (p : String) (fs2 : FS)
    (h : makedirs fs p = .ok fs2) : fs2.files = fs.files := by
  unfold makedirs at h
  split at h
  · cases h
  · cases h
    rfl

theorem create_dir_ok_eq (fs : FS) (p : String) (res : Bool × FS)
    (h : create_dir fs p = .ok res) :
    ∃ fs2, makedirs fs p = .ok fs2 ∧ res = (true, fs2) := by
  unfold create_dir at h
  cases hm : makedirs fs p with
  | error e => rw [hm] at h; cases h
  | ok fs2 =>
      rw [hm] at h
      change (if pathExists fs2 p = true then Except.ok (true, fs2)
        else Except.ok (false, fs2)) = Except.ok res at h
      rw [if_pos (makedirs_ok_exists fs p fs2 hm)] at h
      cases h
      exact ⟨fs2, rfl, rfl⟩

theorem create_dir_ok_fst (fs : FS) (p : String) (res : Bool × FS)
    (h : create_dir fs p = .ok res) : res.1 = true := by
  obtain ⟨fs2, _, hres⟩ := create_dir_ok_eq fs p res h
  rw [hres]

theorem create_dir_files (fs : FS) (p : String) (res : Bool × FS)
    (h : create_dir fs p = .ok res) : res.2.files = fs.files := by
  obtain ⟨fs2, hm, hres⟩ := create_dir_ok_eq fs p res h
  rw [hres]
  exact makedirs_files fs p fs2 hm

/-- C10: whenever `create_dir` returns normally (its `os.makedirs` call did
not raise), the subsequent existence check succeeds, so the `False` branch
is unreachable: the returned boolean is always `true`. -/
theorem create_dir_never_false (fs : FS) (p : String) (res : Bool × FS)
    (h : create_dir fs p = .ok res) : res.1 = true :=
  create_dir_ok_fst fs p res h

/-- Witness for C10: on an empty filesystem, creating `"out"` succeeds and
returns `true`. -/
theorem create_dir_never_false_witness :
    create_dir ⟨[], []⟩ "out" = .ok (true, ⟨["out"], []⟩) ∧
    ((true, (⟨["out"], []⟩ : FS)) : Bool × FS).1 = true :=
  ⟨rfl, create_dir_never_false ⟨[], []⟩ "out" (true, ⟨["out"], []⟩) rfl⟩

/-- The `df` argument of `save_df_as_csv`: either a `pandas.DataFrame`
(modelled as its list of rows) or any non-dataframe value. -/
inductive DfArg where
  | dataframe (rows : List (List String))
  | notDf
deriving DecidableEq

/-- `isinstance(df, pd.DataFrame) and len(df) > 0`. -/
def dfValid : DfArg → Bool
  | .dataframe rows => decide (0 < rows.length)
  | .notDf => false

/-- Log levels used by the module's logger. -/
inductive LogLevel where
  | info
  | warning
deriving DecidableEq

/-- The CSV body `pandas.DataFrame.to_csv` renders for the rows (the exact
quoting rules are pandas' own; the model keeps the body a definite function
of the rows). -/
def toCsv (rows : List (List String)) : String :=
  String.join (rows.map (fun r => String.intercalate "," r ++ "\n"))

/-- Outcome of one `save_df_as_csv` call: the returned value, the emitted
log lines, and the successive filesystem states the call passes through
(initial state first, final state last). -/
structure WriteResult where
  ret : String
  logs : List (LogLevel × String)
  trace : List FS
deriving DecidableEq

/-- `save_df_as_csv` from `src/snps/utils.py`, path-destination flow.
`tmpName` is the fresh name `tempfile.mkstemp(dir=path)` draws, and
`infoHeader` the two provenance comment lines (version and clock values are
external inputs).  The atomic branch records every intermediate filesystem
state: temp file created empty, header written, body appended, and finally
the `os.rename` of the temp file onto the destination. -/
def save_df_as_csv (fs : FS) (df : DfArg) (path filename comment : String)
    (prepend_info atomic : Bool) (tmpName infoHeader : String) :
    Except String WriteResult :=
  match df with
  | .notDf => .ok ⟨"", [(.warning, "no data to save...")], [fs]⟩
  | .dataframe rows =>
      if 0 < rows.length then
        match create_dir fs path with
        | .error e => .error e
        | .ok (dirOk, fs1) =>
            if dirOk = false then .ok ⟨"", [], [fs, fs1]⟩
            else
              let destination := path ++ "/" ++ filename
              let header := (if prepend_info then infoHeader else "") ++ comment
              let content := header ++ toCsv rows
              if atomic then
                let tmpPath := path ++ "/" ++ tmpName
                let fs2 : FS := ⟨fs1.dirs, alSet fs1.files tmpPath ""⟩
                let fs3 : FS := ⟨fs2.dirs, alSet fs2.files tmpPath header⟩
                let fs4 : FS := ⟨fs3.dirs, alSet fs3.files tmpPath content⟩
                let fs5 : FS :=
                  ⟨fs4.dirs, alSet (alRemove fs4.files tmpPath) destination content⟩
                .ok ⟨destination, [(.info, "Saving " ++ destination)],
                  [fs, fs1, fs2, fs3, fs4, fs5]⟩
              else
                let fs2 : FS := ⟨fs1.dirs, alSet fs1.files destination header⟩
                let fs3 : FS := ⟨fs2.dirs, alSet fs2.files destination content⟩
                .ok ⟨destination, [(.info, "Saving " ++ destination)],
                  [fs, fs1, fs2, fs3]⟩
      else .ok ⟨"", [(.warning, "no data to save...")], [fs]⟩

/-- C3: for an empty table or a non-dataframe argument, `save_df_as_csv`
returns the empty-string sentinel without raising, logs a warning, and
leaves the filesystem untouched (no directory, file or temp file created).
-/
theorem save_df_as_csv_empty_returns_sentinel (fs : FS) (df : DfArg)
    (path filename comment : String) (prepend_info atomic : Bool)
    (tmpName infoHeader : String) (h : dfValid df = false) :
    save_df_as_csv fs df path filename comment prepend_info atomic tmpName
        infoHeader
      = .ok ⟨"", [(.warning, "no data to save...")], [fs]⟩ := by
  cases df with
  | notDf => rfl
  | dataframe rows =>
      simp only [dfValid, decide_eq_false_iff_not, Nat.not_lt,
        Nat.le_zero] at h
      simp [save_df_as_csv, h]

/-- Witness for C3: an empty dataframe on a concrete filesystem. -/
theorem save_df_as_csv_empty_returns_sentinel_witness :
    dfValid (.dataframe []) = false ∧
    save_df_as_csv ⟨["d"], [("d/x", "X")]⟩ (.dataframe []) "d" "f.csv" ""
        true true "t" "H"
      = .ok ⟨"", [(.warning, "no data to save...")],
          [⟨["d"], [("d/x", "X")]⟩]⟩ :=
  ⟨rfl, save_df_as_csv_empty_returns_sentinel ⟨["d"], [("d/x", "X")]⟩
    (.dataframe []) "d" "f.csv" "" true true "t" "H" rfl⟩

/-- C2: in the atomic path-destination flow, every filesystem state reached
before the final rename leaves the destination exactly as it was before the
call (prior content kept, or still absent), and the final state holds the
fully written content; at no point is a partially written file observable at
the destination path. -/
theorem save_df_as_csv_atomic_all_or_nothing (fs : FS)
    (rows : List (List String)) (path filename comment : String)
    (prepend_info : Bool) (tmpName infoHeader : String) (w : WriteResult)
    (hrows : 0 < rows.length)
    (hfresh : path ++ "/" ++ tmpName ≠ path ++ "/" ++ filename)
    (hw : save_df_as_csv fs (.dataframe rows) path filename comment
      prepend_info true tmpName infoHeader = .ok w) :
    (∀ st ∈ w.trace.dropLast,
      st.files.lookup (path ++ "/" ++ filename)
        = fs.files.lookup (path ++ "/" ++ filename)) ∧
    (∃ stLast, w.trace.getLast? = some stLast ∧
      stLast.files.lookup (path ++ "/" ++ filename)
        = some ((if prepend_info then infoHeader else "") ++ comment
            ++ toCsv rows)) ∧
    (∀ st ∈ w.trace,
      st.files.lookup (path ++ "/" ++ filename)
        = fs.files.lookup (path ++ "/" ++ filename) ∨
      st.files.lookup (path ++ "/" ++ filename)
        = some ((if prepend_info then infoHeader else "") ++ comment
            ++ toCsv rows)) := by
  simp only [save_df_as_csv] at hw
  rw [if_pos hrows] at hw
  split at hw
  · cases hw
  · rename_i dirOk fs1 hcd
    have hb : dirOk = true := create_dir_ok_fst fs path (dirOk, fs1) hcd
    subst hb
    have hfiles : fs1.files = fs.files :=
      create_dir_files fs path (true, fs1) hcd
    rw [if_neg (by simp : ¬(true = false)), if_pos trivial] at hw
    cases hw
    have hne : (path ++ "/" ++ filename) ≠ (path ++ "/" ++ tmpName) :=
      Ne.symm hfresh
    have h1 : (alSet fs1.files (path ++ "/" ++ tmpName) "").lookup
        (path ++ "/" ++ filename) = fs.files.lookup (path ++ "/" ++ filename) := by
      rw [lookup_alSet_ne _ _ _ _ hne, hfiles]
    have h2 : (alSet (alSet fs1.files (path ++ "/" ++ tmpName) "")
        (path ++ "/" ++ tmpName)
        ((if prepend_info then infoHeader else "") ++ comment)).lookup
        (path ++ "/" ++ filename) = fs.files.lookup (path ++ "/" ++ filename) := by
      rw [lookup_alSet_ne _ _ _ _ hne]
      exact h1
    have h3 : (alSet (alSet (alSet fs1.files (path ++ "/" ++ tmpName) "")
        (path ++ "/" ++ tmpName)
        ((if prepend_info then infoHeader else "") ++ comment))
        (path ++ "/" ++ tmpName)
        ((if prepend_info then infoHeader else "") ++ comment ++ toCsv rows)).lookup
        (path ++ "/" ++ filename) = fs.files.lookup (path ++ "/" ++ filename) := by
      rw [lookup_alSet_ne _ _ _ _ hne]
      exact h2
    have h5 : (alSet (alRemove (alSet (alSet (alSet fs1.files
        (path ++ "/" ++ tmpName) "") (path ++ "/" ++ tmpName)
        ((if prepend_info then infoHeader else "") ++ comment))
        (path ++ "/" ++ tmpName)
        ((if prepend_info then infoHeader else "") ++ comment ++ toCsv rows))
        (path ++ "/" ++ tmpName)) (path ++ "/" ++ filename)
        ((if prepend_info then infoHeader else "") ++ comment ++ toCsv rows)).lookup
        (path ++ "/" ++ filename)
        = some ((if prepend_info then infoHeader else "") ++ comment
            ++ toCsv rows) := lookup_alSet_self _ _ _
    refine ⟨?_, ?_, ?_⟩
    · intro st hst
      simp only [List.dropLast, List.mem_cons, List.not_mem_nil, or_false] at hst
      rcases hst with rfl | rfl | rfl | rfl | rfl
      · rfl
      · rw [hfiles]
      · exact h1
      · exact h2
      · exact h3
    · exact ⟨_, rfl, h5⟩
    · intro st hst
      simp only [List.mem_cons, List.not_mem_nil, or_false] at hst
      rcases hst with rfl | rfl | rfl | rfl | rfl | rfl
      · exact Or.inl rfl
      · exact Or.inl (by rw [hfiles])
      · exact Or.inl h1
      · exact Or.inl h2
      · exact Or.inl h3
      · exact Or.inr h5

/-- The concrete `WriteResult` of the atomic write used by the C2 witness. -/
def atomicWitnessW : WriteResult :=
  ⟨"d/f.csv", [(.info, "Saving d/f.csv")],
    [⟨[], []⟩, ⟨["d"], []⟩, ⟨["d"], [("d/t", "")]⟩, ⟨["d"], [("d/t", "")]⟩,
      ⟨["d"], [("d/t", "x\n")]⟩, ⟨["d"], [("d/f.csv", "x\n")]⟩]⟩

/-- Witness for C2: a one-row dataframe written atomically into a fresh
directory; before the rename the destination stays absent, afterwards it
holds the full content. -/
theorem save_df_as_csv_atomic_all_or_nothing_witness :
    (0 < [["x"]].length) ∧
    ("d" ++ "/" ++ "t" ≠ "d" ++ "/" ++ "f.csv") ∧
    (∀ st ∈ atomicWitnessW.trace.dropLast,
      st.files.lookup ("d" ++ "/" ++ "f.csv")
        = (FS.mk [] []).files.lookup ("d" ++ "/" ++ "f.csv")) ∧
    (∃ stLast, atomicWitnessW.trace.getLast? = some stLast ∧
      stLast.files.lookup ("d" ++ "/" ++ "f.csv")
        = some ((if false then "H" else "") ++ "" ++ toCsv [["x"]])) :=
  ⟨by decide, by decide,
    (save_df_as_csv_atomic_all_or_nothing ⟨[], []⟩ [["x"]] "d" "f.csv" "" false
      "t" "H" atomicWitnessW (by decide) (by decide) rfl).1,
    (save_df_as_csv_atomic_all_or_nothing ⟨[], []⟩ [["x"]] "d" "f.csv" "" false
      "t" "H" atomicWitnessW (by decide) (by decide) rfl).2.1⟩

/-- On-disk content of a file in the binary-file model: raw bytes, a zip
container holding named entries, or a gzip container holding the bytes of
the compressed stream.  The byte-level encodings of the two stdlib container
formats are abstracted to the container structure they are documented to
hold. -/
inductive BinData where
  | raw (bytes : List Nat)
  | zipArc (entries : List (String × List Nat))
  | gzipData (payload : List Nat)
deriving DecidableEq

/-- The binary filesystem: a map from paths to on-disk contents. -/
def BinFS := List (String × BinData)

/-- `zip_file` from `src/snps/utils.py`: read the source file and write a
single-entry zip archive at `dest` (atomically replaced), storing the source
bytes under `arcname`; returns `dest`.  A missing source propagates as an
error. -/
def zip_file (fs : BinFS) (src dest arcname : String) :
    Except String (String × BinFS) :=
  match List.lookup src fs with
  | some (.raw content) => .ok (dest, alSet fs dest (.zipArc [(arcname, content)]))
  | _ => .error "FileNotFoundError"

/-- `shutil.copyfileobj(f_in, f_out, bufsize)`: stream the source bytes in
chunks of `bufsize` and concatenate them on the output side. -/
def copyfileobj (bufsize : Nat) (bytes : List Nat) : List Nat :=
  (chunksOf bufsize bytes).flatten

/-- `gzip_file` from `src/snps/utils.py`: open the source, stream-compress
its bytes through `shutil.copyfileobj` into a gzip container at `dest`
(atomically replaced); returns `dest`. -/
def gzip_file (fs : BinFS) (src dest : String) (bufsize : Nat) :
    Except String (String × BinFS) :=
  match List.lookup src fs with
  | some (.raw content) =>
      .ok (dest, alSet fs dest (.gzipData (copyfileobj bufsize content)))
  | _ => .error "FileNotFoundError"

/-- Extracting the single entry of a zip archive: its name and bytes. -/
def zipExtractSingle : BinData → Option (String × List Nat)
  | .zipArc [(name, content)] => some (name, content)
  | _ => none

/-- Decompressing a gzip container back to the bytes it wraps. -/
def gunzip : BinData → Option (List Nat)
  | .gzipData payload => some payload
  | _ => none

/-- C8: zipping a file and extracting the single entry of the produced
archive yields byte-identical content under exactly the requested entry
name, and gzip-compressing then decompressing yields byte-identical
content. -/
theorem zip_gzip_roundtrip (fs : BinFS) (src dest arcname : String)
    (content : List Nat) (bufsize : Nat)
    (h : List.lookup src fs = some (.raw content)) :
    (∃ fs1, zip_file fs src dest arcname = .ok (dest, fs1) ∧
      (List.lookup dest fs1).bind zipExtractSingle
        = some (arcname, content)) ∧
    (∃ fs2, gzip_file fs src dest bufsize = .ok (dest, fs2) ∧
      (List.lookup dest fs2).bind gunzip = some content) := by
  constructor
  · refine ⟨alSet fs dest (.zipArc [(arcname, content)]), ?_, ?_⟩
    · unfold zip_file
      rw [h]
    · rw [lookup_alSet_self]
      rfl
  · refine ⟨alSet fs dest (.gzipData (copyfileobj bufsize content)), ?_, ?_⟩
    · unfold gzip_file
      rw [h]
    · rw [lookup_alSet_self]
      simp [gunzip, copyfileobj, flatten_chunksOf]

/-- Witness for C8: a three-byte file zipped under entry name `"a"` and
gzipped with a two-byte copy buffer. -/
theorem zip_gzip_roundtrip_witness :
    (List.lookup "s.txt" ([("s.txt", .raw [1, 2, 3])] : BinFS)
      = some (.raw [1, 2, 3])) ∧
    (∃ fs1, zip_file [("s.txt", .raw [1, 2, 3])] "s.txt" "o.zip" "a"
        = .ok ("o.zip", fs1) ∧
      (List.lookup "o.zip" fs1).bind zipExtractSingle
        = some ("a", [1, 2, 3])) :=
  ⟨by decide,
    (zip_gzip_roundtrip [("s.txt", .raw [1, 2, 3])] "s.txt" "o.zip" "a"
      [1, 2, 3] 2 (by decide)).1⟩
